import Mathlib

/-!
Shallow embedding of the event-streaming pipeline of the repository
(social_network: models.py, controller.py, consumer.py, test_kafka.py).

Python runtime values that cross `json.dumps` are modelled by `PyVal`;
Python exceptions by `PyErr`; a statement that may raise is modelled with
`Except PyErr`.
-/

/-- Python exception values relevant to the embedded code. -/
inductive PyErr where
  | typeError (msg : String)
  | attributeError (msg : String)
  | kafkaError (msg : String)
  | requestError (msg : String)
  | generic (msg : String)
deriving DecidableEq, Repr

/-- Python values handed to `json.dumps`: JSON-compatible values plus
the two non-serializable object kinds that actually occur in the source
(`datetime.time` objects and exception instances). -/
inductive PyVal where
  | none
  | bool (b : Bool)
  | int (n : Int)
  | str (s : String)
  | list (xs : List PyVal)
  | dict (kvs : List (String × PyVal))
  | time (t : Nat)
  | exc (e : PyErr)

/-- Escape a string the way `json.dumps` does for the characters that can
occur in this repository's data (quote, backslash, common controls). -/
def jsonEscape (s : String) : String :=
  s.foldl (fun acc c =>
    if c = '"' then acc ++ "\\\""
    else if c = '\\' then acc ++ "\\\\"
    else if c = '\n' then acc ++ "\\n"
    else if c = '\t' then acc ++ "\\t"
    else if c = '\r' then acc ++ "\\r"
    else acc.push c) ""

/-- Join already-rendered JSON fragments with the default separator of
`json.dumps`. -/
def joinComma : List String → String
  | [] => ""
  | [s] => s
  | s :: rest => s ++ ", " ++ joinComma rest

mutual

/-- Model of Python `json.dumps` on a single value: renders JSON for
serializable values and raises `TypeError` on `datetime.time` objects and
exception instances, exactly as CPython's default encoder does. -/
def dumpsVal : PyVal → Except PyErr String
  | .none => .ok "null"
  | .bool b => .ok (if b then "true" else "false")
  | .int n => .ok (toString n)
  | .str s => .ok ("\"" ++ jsonEscape s ++ "\"")
  | .time _ => .error (.typeError "Object of type time is not JSON serializable")
  | .exc _ => .error (.typeError "Object of type Exception is not JSON serializable")
  | .list xs =>
      match dumpsList xs with
      | .error e => .error e
      | .ok parts => .ok ("[" ++ joinComma parts ++ "]")
  | .dict kvs =>
      match dumpsMembers kvs with
      | .error e => .error e
      | .ok parts => .ok ("\x7b" ++ joinComma parts ++ "\x7d")

/-- Render the elements of a JSON array, failing on the first
non-serializable element. -/
def dumpsList : List PyVal → Except PyErr (List String)
  | [] => .ok []
  | v :: vs =>
      match dumpsVal v with
      | .error e => .error e
      | .ok s =>
          match dumpsList vs with
          | .error e => .error e
          | .ok rest => .ok (s :: rest)

/-- Render the members of a JSON object, failing on the first
non-serializable member value. -/
def dumpsMembers : List (String × PyVal) → Except PyErr (List String)
  | [] => .ok []
  | (k, v) :: kvs =>
      match dumpsVal v with
      | .error e => .error e
      | .ok s =>
          match dumpsMembers kvs with
          | .error e => .error e
          | .ok rest => .ok (("\"" ++ jsonEscape k ++ "\": " ++ s) :: rest)

end

/-- Field lookup on a `PyVal` dict (the field-name-to-value mapping the
wire format consists of). -/
def PyVal.get (v : PyVal) (k : String) : Option PyVal :=
  match v with
  | .dict kvs => kvs.lookup k
  | _ => Option.none

/-!
## Domain models (src/social_network/models.py)

`BaseModel.__init__` stamps `_created_at` and `_updated_at` from the clock
at construction time; the clock reading is made explicit as a `Nat`
parameter of each constructor function.  Python's in-place mutation
(`Post.add_like` appends to the private liked list) is modelled by state
passing: the mutator returns the post's new state.
-/

/-- `User` from models.py: private username/password/email plus the
`BaseModel` timestamps. -/
structure User where
  username : String
  password : String
  email : String
  created_at : Nat
  updated_at : Nat
deriving DecidableEq, Repr

/-- `User.__init__`: `super().__init__()` stamps both timestamps from the
construction-time clock `t`, then the three fields are stored. -/
def mkUser (t : Nat) (username password email : String) : User :=
  { username := username, password := password, email := email
    created_at := t, updated_at := t }

/-- The field-name-to-value mapping `User.response` builds and hands to
`json.dumps`: only username and email. -/
def User.wire (u : User) : PyVal :=
  .dict [("username", .str u.username), ("email", .str u.email)]

/-- `User.response`: `json.dumps` of the wire mapping. -/
def User.response (u : User) : Except PyErr String :=
  dumpsVal u.wire

/-- `Profile` from models.py (bio and contact default to `None`). -/
structure Profile where
  user : User
  first_name : String
  last_name : String
  bio : Option String
  contact : Option Int
  created_at : Nat
  updated_at : Nat
deriving DecidableEq, Repr

/-- `Profile.__init__`. -/
def mkProfile (t : Nat) (user : User) (first_name last_name : String)
    (bio : Option String) (contact : Option Int) : Profile :=
  { user := user, first_name := first_name, last_name := last_name
    bio := bio, contact := contact, created_at := t, updated_at := t }

/-- Python `None` / value coercions used when an optional field is placed
in a payload dict. -/
def optStr : Option String → PyVal
  | Option.none => .none
  | Option.some s => .str s

/-- Optional integer to payload value. -/
def optInt : Option Int → PyVal
  | Option.none => .none
  | Option.some n => .int n

/-- The mapping `Profile.response` hands to `json.dumps`: an embedded
user sub-object with username and email only, then the profile fields. -/
def Profile.wire (p : Profile) : PyVal :=
  .dict [("user", .dict [("username", .str p.user.username), ("email", .str p.user.email)]),
         ("first_name", .str p.first_name),
         ("last_name", .str p.last_name),
         ("bio", optStr p.bio),
         ("contact", optInt p.contact)]

/-- `Profile.response`. -/
def Profile.response (p : Profile) : Except PyErr String :=
  dumpsVal p.wire

/-- `Post` from models.py: the liked list starts empty. -/
structure Post where
  user : User
  title : String
  content : String
  liked : List User
  created_at : Nat
  updated_at : Nat
deriving DecidableEq, Repr

/-- `Post.__init__`. -/
def mkPost (t : Nat) (user : User) (title content : String) : Post :=
  { user := user, title := title, content := content, liked := []
    created_at := t, updated_at := t }

/-- `Post.add_like` appends the liking user to the private liked list;
the in-place mutation is modelled as the post's successor state. -/
def Post.add_like (p : Post) (u : User) : Post :=
  { p with liked := p.liked ++ [u] }

/-- `Post.get_like_count`. -/
def Post.get_like_count (p : Post) : Nat :=
  p.liked.length

/-- The mapping `Post.response` hands to `json.dumps`: user sub-object,
title, content, like_count, and the raw `datetime.time` object
`self._created_at`. -/
def Post.wire (p : Post) : PyVal :=
  .dict [("user", .dict [("username", .str p.user.username), ("email", .str p.user.email)]),
         ("title", .str p.title),
         ("content", .str p.content),
         ("like_count", .int (p.liked.length : Int)),
         ("created_at", .time p.created_at)]

/-- `Post.response`: `json.dumps` of a mapping whose `created_at` entry is
a `datetime.time` object. -/
def Post.response (p : Post) : Except PyErr String :=
  dumpsVal p.wire

/-- `Comment` from models.py. -/
structure Comment where
  user : User
  content : String
  created_at : Nat
  updated_at : Nat
deriving DecidableEq, Repr

/-- `Comment.__init__`. -/
def mkComment (t : Nat) (user : User) (content : String) : Comment :=
  { user := user, content := content, created_at := t, updated_at := t }

/-- The mapping `Comment.response` hands to `json.dumps`. -/
def Comment.wire (c : Comment) : PyVal :=
  .dict [("user", .dict [("username", .str c.user.username), ("email", .str c.user.email)]),
         ("content", .str c.content)]

/-- `Comment.response`. -/
def Comment.response (c : Comment) : Except PyErr String :=
  dumpsVal c.wire

/-!
## Deserialization (modelled from the spec)

The repository ships no deserializer (its consumer only prints the raw
message value), so the decode side of the round-trip property is modelled
from the spec: the wire format is "a canonical encoding (field name to
value mapping)", decoded by reading each named field back out of the
mapping.
-/

/-- Modelled from the spec: decoding of a UserCreated wire mapping; the
repository has no deserializer, so the field-name-to-value mapping is read
back field by field per the spec's canonical encoding. -/
def decodeUserWire (v : PyVal) : Option (String × String) :=
  match v.get "username", v.get "email" with
  | Option.some (.str un), Option.some (.str em) => Option.some (un, em)
  | _, _ => Option.none

/-- Fields a ProfileCreated wire mapping carries. -/
structure ProfileWireData where
  username : String
  email : String
  first_name : String
  last_name : String
  bio : Option String
  contact : Option Int
deriving DecidableEq, Repr

/-- Decoding of an optional string field. -/
def decodeOptStr (v : PyVal) : Option (Option String) :=
  match v with
  | .none => Option.some Option.none
  | .str s => Option.some (Option.some s)
  | _ => Option.none

/-- Decoding of an optional integer field. -/
def decodeOptInt (v : PyVal) : Option (Option Int) :=
  match v with
  | .none => Option.some Option.none
  | .int n => Option.some (Option.some n)
  | _ => Option.none

/-- Modelled from the spec: decoding of a ProfileCreated wire mapping
(embedded user sub-object plus the profile's own fields). -/
def decodeProfileWire (v : PyVal) : Option ProfileWireData :=
  match v.get "user" with
  | Option.some sub =>
      match decodeUserWire sub with
      | Option.some (un, em) =>
          match v.get "first_name", v.get "last_name", v.get "bio", v.get "contact" with
          | Option.some (.str fn), Option.some (.str ln), Option.some b, Option.some c =>
              match decodeOptStr b, decodeOptInt c with
              | Option.some bio, Option.some contact =>
                  Option.some { username := un, email := em, first_name := fn
                                last_name := ln, bio := bio, contact := contact }
              | _, _ => Option.none
          | _, _, _, _ => Option.none
      | Option.none => Option.none
  | Option.none => Option.none

/-- Modelled from the spec: decoding of a CommentCreated wire mapping. -/
def decodeCommentWire (v : PyVal) : Option (String × String × String) :=
  match v.get "user" with
  | Option.some sub =>
      match decodeUserWire sub, v.get "content" with
      | Option.some (un, em), Option.some (.str co) => Option.some (un, em, co)
      | _, _ => Option.none
  | Option.none => Option.none

/-!
## Producer side (src/social_network/controller.py)

`SendToKafka.push` wraps `with app.get_producer() as producer:
producer.produce(...)` in a try/except whose handler returns
`json.dumps({'error': e})`.  The broker interaction is made explicit as a
`ProducerEnv` giving the outcome of connection acquisition, of the
`produce` call, and of the flush performed by the context manager's
`__exit__`.  Python's `with` statement invokes `__exit__` (flush and
release) on every path after a successful acquisition.
-/

/-- Outcomes of the broker-facing steps of one `push` call. -/
structure ProducerEnv where
  acquire : Except PyErr Unit
  produce : Except PyErr Unit
  flush : Except PyErr Unit

/-- Observable trace of one `SendToKafka.push` call: how many `produce`
calls were issued, which value was handed to `produce` (if any), whether
the context manager's exit path ran (connection released), and the call's
result — `Except.ok` models a `return`, `Except.error` models an
exception escaping `push`. -/
structure PushTrace where
  attempts : Nat
  produced : Option PyVal
  released : Bool
  result : Except PyErr (Option String)

/-- The except-handler of `push`: `return json.dumps({'error': e})`.
`e` is an exception instance, so `json.dumps` itself may raise. -/
def pushHandler (e : PyErr) : Except PyErr (Option String) :=
  match dumpsVal (.dict [("error", .exc e)]) with
  | .ok s => .ok (Option.some s)
  | .error e2 => .error e2

/-- `SendToKafka.push(topic, value, key)`: one produce attempt inside a
scoped connection; any exception from acquisition, produce, or flush is
routed to the except handler. The `topic` and `key` arguments do not
affect the modelled control flow and are dropped. -/
def SendToKafka.push (env : ProducerEnv) (value : PyVal) : PushTrace :=
  match env.acquire with
  | .error e =>
      { attempts := 0, produced := Option.none, released := false, result := pushHandler e }
  | .ok _ =>
      match env.produce with
      | .error e =>
          { attempts := 1, produced := Option.some value, released := true, result := pushHandler e }
      | .ok _ =>
          match env.flush with
          | .error e =>
              { attempts := 1, produced := Option.some value, released := true, result := pushHandler e }
          | .ok _ =>
              { attempts := 1, produced := Option.some value, released := true, result := .ok Option.none }

/-- `UserProduce.create_user`: builds the hardcoded user and returns
`value.response()`; the except branch would apply the same
`json.dumps({'error': e})` handler. -/
def UserProduce.create_user (t : Nat) : Except PyErr String :=
  match (mkUser t "Abhijeet" "#include" "abhijeetkumar3015@gmail").response with
  | .ok s => .ok s
  | .error e =>
      match dumpsVal (.dict [("error", .exc e)]) with
      | .ok s => .ok s
      | .error e2 => .error e2

/-- `UserProduce.send_to_kafka`: calls `self.push(topic, value=self.create_user(), key)`
discarding push's return value; the method body has no `return`, so a
normal exit yields Python `None`; an exception escaping `push` (or
`create_user`) propagates. -/
def UserProduce.send_to_kafka (env : ProducerEnv) (t : Nat) : Except PyErr PyVal :=
  match UserProduce.create_user t with
  | .error e => .error e
  | .ok s =>
      match (SendToKafka.push env (.str s)).result with
      | .error e => .error e
      | .ok _ => .ok PyVal.none

/-- `ProfileProduce.create_profile`: builds the hardcoded user and
profile, returns `value.response()`; same except-handler shape. -/
def ProfileProduce.create_profile (t : Nat) : Except PyErr String :=
  match (mkProfile t (mkUser t "Abhijeet" "#include" "abhijeetkumar3015@gmail")
      "Abhijeet" "Kumar3015" (Option.some "This is my bio") (Option.some 7079840969)).response with
  | .ok s => .ok s
  | .error e =>
      match dumpsVal (.dict [("error", .exc e)]) with
      | .ok s => .ok s
      | .error e2 => .error e2

/-- `ProfileProduce.send_to_kafka`: pushes `create_profile()`'s value and
returns `None`. -/
def ProfileProduce.send_to_kafka (env : ProducerEnv) (t : Nat) : Except PyErr PyVal :=
  match ProfileProduce.create_profile t with
  | .error e => .error e
  | .ok s =>
      match (SendToKafka.push env (.str s)).result with
      | .error e => .error e
      | .ok _ => .ok PyVal.none

/-- `PostProduce.create_post`: builds the hardcoded user and post and
binds them to locals, but the try-body has no `return` statement, so the
function falls off the end and returns Python `None`. -/
def PostProduce.create_post (t : Nat) : PyVal :=
  let user := mkUser t "Abhijeet" "#include" "abhijeetkumar3015@gmail"
  let _value := mkPost t user "post" "This is my post"
  PyVal.none

/-- `PostProduce.send_to_kafka`: pushes `create_post()`'s value (which is
`None`) and returns `None`. -/
def PostProduce.send_to_kafka (env : ProducerEnv) (t : Nat) : Except PyErr PyVal :=
  match (SendToKafka.push env (PostProduce.create_post t)).result with
  | .error e => .error e
  | .ok _ => .ok PyVal.none

/-- `CommentProduce.make_comment`: builds the hardcoded user and comment
(no try/except here) and returns `value.response()`; an exception from
`response` would propagate. -/
def CommentProduce.make_comment (t : Nat) : Except PyErr String :=
  (mkComment t (mkUser t "Abhijeet" "#include" "abhijeetkumar3015@gmail")
    "This is my comment").response

/-- `CommentProduce.send_to_kafka`: pushes `make_comment()`'s value and
returns `None`. -/
def CommentProduce.send_to_kafka (env : ProducerEnv) (t : Nat) : Except PyErr PyVal :=
  match CommentProduce.make_comment t with
  | .error e => .error e
  | .ok s =>
      match (SendToKafka.push env (.str s)).result with
      | .error e => .error e
      | .ok _ => .ok PyVal.none

/-!
## Consumer side (src/social_network/consumer.py)

`setup_consumer` subscribes inside an outer try/except and then runs
`while True` with an inner try/except.  One loop iteration is driven by
the outcome of `consumer.poll(1)`:

- the poll call raises, or
- the poll returns `None` (empty poll), or
- the poll returns a message object whose `.value()` is read.

The iteration body in the source is, in order: bind the poll result,
print the running diagnostic, print the waiting diagnostic when the
result is `None`, then unconditionally evaluate `message.value()` and
print it.  The inner except catches any exception and logs it; every
branch then reaches `time.sleep(10)` and continues the loop.
-/

/-- Outcome of one `consumer.poll(1)` call as seen by the loop body. -/
inductive PollOutcome where
  | pollError (e : PyErr)
  | empty
  | msg (v : Except PyErr PyVal)

/-- Diagnostics emitted by the loop body in source order. -/
inductive LogEvent where
  | running
  | waiting
  | printedValue (v : PyVal)
  | errorLog (e : PyErr)
  | setupError (e : PyErr)

/-- What the iteration does with the loop: the source's `while True` body
contains no `break` or `return`, so every branch continues. -/
inductive LoopControl where
  | continueLoop
  | exitLoop
deriving DecidableEq, Repr

/-- Observable trace of one loop iteration: logs in emission order,
the exception caught by the inner handler (if any), the sleep performed
after the body, and whether the loop continues. -/
structure IterResult where
  logs : List LogEvent
  caught : Option PyErr
  sleep : Nat
  control : LoopControl

/-- The `AttributeError` raised by `message.value()` when
`consumer.poll` returned `None`. -/
def noneValueError : PyErr :=
  .attributeError "NoneType object has no attribute value"

/-- One iteration of the `while True` body of `setup_consumer`, as a
function of the poll outcome. -/
def loopIter : PollOutcome → IterResult
  | .pollError e =>
      { logs := [.errorLog e], caught := Option.some e, sleep := 10, control := .continueLoop }
  | .empty =>
      { logs := [.running, .waiting, .errorLog noneValueError]
        caught := Option.some noneValueError, sleep := 10, control := .continueLoop }
  | .msg (.error e) =>
      { logs := [.running, .errorLog e], caught := Option.some e, sleep := 10, control := .continueLoop }
  | .msg (.ok v) =>
      { logs := [.running, .printedValue v], caught := Option.none, sleep := 10, control := .continueLoop }

/-- A finite prefix of the unbounded polling loop: each poll outcome is
handed to one iteration; no iteration can stop the traversal because no
branch exits. -/
def runLoop (polls : List PollOutcome) : List IterResult :=
  polls.map loopIter

/-- Observable trace of one `setup_consumer()` run (over a finite prefix
of poll outcomes when the loop is entered).  The outer except catches a
subscription failure, logs it, and falls through: the function returns
normally and the script exits with status 0 (no `sys.exit`, no
re-raise). -/
structure ConsumerRun where
  setupLogs : List LogEvent
  subscribeAttempts : Nat
  loopEntered : Bool
  iterations : List IterResult
  exitStatus : Nat

/-- `setup_consumer()`: subscribe once inside the outer try; on failure
log and return (process exit 0); on success enter the unbounded loop. -/
def setup_consumer (subscribe : Except PyErr Unit) (polls : List PollOutcome) : ConsumerRun :=
  match subscribe with
  | .error e =>
      { setupLogs := [.setupError e], subscribeAttempts := 1, loopEntered := false
        iterations := [], exitStatus := 0 }
  | .ok _ =>
      { setupLogs := [], subscribeAttempts := 1, loopEntered := true
        iterations := runLoop polls, exitStatus := 0 }

/-!
## External source adapter (src/social_network/test_kafka.py)

`get_weather` performs one HTTP fetch; a `requests.exceptions.RequestException`
is caught and the exception object itself is returned as the function's
value; a successful request returns `response.json()`.
-/

/-- Outcome of the `requests.get(...)` call plus `response.json()`:
either a decoded payload or a `RequestException`. -/
inductive FetchOutcome where
  | ok (payload : PyVal)
  | err (e : PyErr)

/-- `get_weather()`: the value actually returned to the caller —
`Except.ok` models a normal return (never raising), and the returned
value is either the error object (`Sum.inl`) or the payload
(`Sum.inr`). -/
def get_weather : FetchOutcome → Except PyErr (PyErr ⊕ PyVal)
  | .ok payload => .ok (Sum.inr payload)
  | .err e => .ok (Sum.inl e)

/-!
## Theorems
-/

/-- Every branch of the loop body ends the iteration with the loop still
running: the source's `while True` body has no `break` or `return` and the
inner except catches every exception. -/
theorem loopIter_control (o : PollOutcome) : (loopIter o).control = .continueLoop := by
  cases o with
  | pollError e => rfl
  | empty => rfl
  | msg v => cases v <;> rfl

/-- Every branch of the loop body reaches the same `time.sleep(10)`. -/
theorem loopIter_sleep (o : PollOutcome) : (loopIter o).sleep = 10 := by
  cases o with
  | pollError e => rfl
  | empty => rfl
  | msg v => cases v <;> rfl

/-- C1: the claim says an empty poll raises no error and the loop stays in
Polling. On the code, three consecutive empty polls do emit the "waiting"
diagnostic and never terminate the loop, but each iteration then evaluates
`message.value()` on `None`, raising an `AttributeError` that the error
handler catches and logs — the empty poll is routed through the error
(BackingOff) branch, contradicting the claim. -/
theorem C1_empty_poll_routed_to_error_branch :
    runLoop [.empty, .empty, .empty] =
      [{ logs := [.running, .waiting, .errorLog noneValueError],
         caught := Option.some noneValueError, sleep := 10, control := .continueLoop },
       { logs := [.running, .waiting, .errorLog noneValueError],
         caught := Option.some noneValueError, sleep := 10, control := .continueLoop },
       { logs := [.running, .waiting, .errorLog noneValueError],
         caught := Option.some noneValueError, sleep := 10, control := .continueLoop }] := rfl

/-- C4: any poll error and any processing error inside one iteration is
caught and logged, the iteration takes the fixed 10-unit backoff sleep,
and the loop continues; over any finite prefix of poll outcomes every
iteration sleeps exactly 10 units and continues — the loop never exits
because of an error and the backoff is fixed, not exponential. -/
theorem C4_errors_logged_fixed_backoff_loop_continues
    (e : PyErr) (polls : List PollOutcome) :
    loopIter (.pollError e) =
      { logs := [.errorLog e], caught := Option.some e, sleep := 10, control := .continueLoop } ∧
    loopIter (.msg (.error e)) =
      { logs := [.running, .errorLog e], caught := Option.some e, sleep := 10, control := .continueLoop } ∧
    (runLoop polls).map IterResult.sleep = polls.map (fun _ => 10) ∧
    (runLoop polls).map IterResult.control = polls.map (fun _ => LoopControl.continueLoop) := by
  refine ⟨rfl, rfl, ?_, ?_⟩
  · simp only [runLoop, List.map_map]
    exact List.map_congr_left (fun o _ => loopIter_sleep o)
  · simp only [runLoop, List.map_map]
    exact List.map_congr_left (fun o _ => loopIter_control o)

/-- C5 counterexample: at a concrete subscription failure the loop is
never entered and the cause is logged, but the outer except handler
swallows the exception, so the script finishes normally and the process
exit status is 0 — not the non-zero status the claim requires. -/
theorem C5_subscribe_failure_exit_status_zero :
    (setup_consumer (.error (.kafkaError "subscribe failed")) []).loopEntered = false ∧
    (setup_consumer (.error (.kafkaError "subscribe failed")) []).exitStatus = 0 := ⟨rfl, rfl⟩

/-- C5 amended: a subscription failure is fatal — the loop is not
entered, subscription is attempted exactly once (never retried), and the
cause is logged — but the consumer process then exits with status 0,
because the outer except handler swallows the exception. -/
theorem C5_subscribe_failure_fatal_logged_exits_zero
    (e : PyErr) (polls : List PollOutcome) :
    setup_consumer (.error e) polls =
      { setupLogs := [.setupError e], subscribeAttempts := 1, loopEntered := false
        iterations := [], exitStatus := 0 } := rfl

/-- C6: the external source adapter's fetch never raises to its caller —
on a failing request the `RequestException` object is returned as the
function's value (not silently swallowed, the error object itself is the
result), and on a succeeding request the decoded payload is returned. -/
theorem C6_get_weather_error_as_value (p : PyVal) (e : PyErr) :
    get_weather (.ok p) = .ok (Sum.inr p) ∧
    get_weather (.err e) = .ok (Sum.inl e) := ⟨rfl, rfl⟩

/-- C9: `PostProduce.create_post` falls off the end of its try-body
without a `return`, so every successful construction returns Python
`None`; consequently the produce call issued by
`PostProduce.send_to_kafka` (under any acquired connection) carries
`None` as the message value, not the serialized PostCreated event. -/
theorem C9_create_post_returns_none_and_publishes_none
    (t : Nat) (pr fl : Except PyErr Unit) :
    PostProduce.create_post t = PyVal.none ∧
    (SendToKafka.push { acquire := .ok (), produce := pr, flush := fl }
      (PostProduce.create_post t)).produced = Option.some PyVal.none := by
  refine ⟨rfl, ?_⟩
  cases pr with
  | error e => rfl
  | ok _ => cases fl <;> rfl

/-- C3: evaluated at a produce failure and at a flush failure, `push`
makes exactly one produce attempt (no retry) and the scoped connection's
exit path runs (the handle is released), but the except handler evaluates
`json.dumps({'error': e})` on the exception object, which itself raises
`TypeError` — so `push` raises an unhandled exception instead of
returning the typed error value the claim (and the spec's PublishError
contract) requires. -/
theorem C3_push_failure_raises_instead_of_returning_error :
    (SendToKafka.push
        { acquire := .ok (), produce := .error (.kafkaError "broker unreachable"), flush := .ok () }
        (.str "payload")).attempts = 1 ∧
    (SendToKafka.push
        { acquire := .ok (), produce := .error (.kafkaError "broker unreachable"), flush := .ok () }
        (.str "payload")).released = true ∧
    (SendToKafka.push
        { acquire := .ok (), produce := .error (.kafkaError "broker unreachable"), flush := .ok () }
        (.str "payload")).result =
      .error (.typeError "Object of type Exception is not JSON serializable") ∧
    (SendToKafka.push
        { acquire := .ok (), produce := .ok (), flush := .error (.kafkaError "flush timed out") }
        (.str "payload")).released = true ∧
    (SendToKafka.push
        { acquire := .ok (), produce := .ok (), flush := .error (.kafkaError "flush timed out") }
        (.str "payload")).result =
      .error (.typeError "Object of type Exception is not JSON serializable") := by
  refine ⟨rfl, rfl, ?_, rfl, ?_⟩ <;>
    simp [SendToKafka.push, pushHandler, dumpsVal, dumpsMembers]

/-- C10 counterexample: at a concrete failing produce call, `push` does
not return a JSON error string — its except handler raises `TypeError`
(the exception object is not JSON serializable), so the call's outcome is
a raised exception, not a returned value. -/
theorem C10_push_failure_returns_no_json_string :
    (SendToKafka.push
        { acquire := .ok (), produce := .error (.generic "delivery failed"), flush := .ok () }
        (.str "user payload")).result =
      .error (.typeError "Object of type Exception is not JSON serializable") := by
  simp [SendToKafka.push, pushHandler, dumpsVal, dumpsMembers]

/-- C10 amended: `push` returns `None` on a successful publish; on any
publish failure its handler raises `TypeError` instead of returning the
JSON error string.  Every `send_to_kafka` method discards `push`'s return
value and itself returns `None` on success, so the error value is indeed
never observable to its caller — what a caller sees on failure is the
propagating `TypeError`. -/
theorem C10_send_to_kafka_discards_push_result
    (e : PyErr) (fl : Except PyErr Unit) (v : PyVal) (t : Nat) :
    (SendToKafka.push { acquire := .ok (), produce := .ok (), flush := .ok () } v).result =
      .ok Option.none ∧
    (SendToKafka.push { acquire := .ok (), produce := .error e, flush := fl } v).result =
      .error (.typeError "Object of type Exception is not JSON serializable") ∧
    UserProduce.send_to_kafka { acquire := .ok (), produce := .ok (), flush := .ok () } t =
      .ok PyVal.none ∧
    ProfileProduce.send_to_kafka { acquire := .ok (), produce := .ok (), flush := .ok () } t =
      .ok PyVal.none ∧
    PostProduce.send_to_kafka { acquire := .ok (), produce := .ok (), flush := .ok () } t =
      .ok PyVal.none ∧
    CommentProduce.send_to_kafka { acquire := .ok (), produce := .ok (), flush := .ok () } t =
      .ok PyVal.none ∧
    UserProduce.send_to_kafka { acquire := .ok (), produce := .error e, flush := fl } t =
      .error (.typeError "Object of type Exception is not JSON serializable") := by
  refine ⟨rfl, ?_, ?_, ?_, rfl, ?_, ?_⟩
  · simp [SendToKafka.push, pushHandler, dumpsVal, dumpsMembers]
  · simp [UserProduce.send_to_kafka, UserProduce.create_user, User.response, User.wire,
      mkUser, SendToKafka.push, dumpsVal, dumpsMembers]
  · simp [ProfileProduce.send_to_kafka, ProfileProduce.create_profile, Profile.response,
      Profile.wire, mkProfile, mkUser, optStr, optInt, SendToKafka.push, dumpsVal, dumpsMembers]
  · simp [CommentProduce.send_to_kafka, CommentProduce.make_comment, Comment.response,
      Comment.wire, mkComment, mkUser, SendToKafka.push, dumpsVal, dumpsMembers]
  · simp [UserProduce.send_to_kafka, UserProduce.create_user, User.response, User.wire,
      mkUser, SendToKafka.push, pushHandler, dumpsVal, dumpsMembers]

/-- C2 counterexample: for the PostCreated variant serialization does not
succeed — `Post.response` raises `TypeError` because the payload embeds
the raw `datetime.time` creation timestamp — and for the UserCreated
variant two distinct events (differing in password and creation
timestamp) serialize identically, so no deserializer can reproduce all
fields of the event from the wire bytes. -/
theorem C2_post_serialization_fails_and_fields_not_carried :
    Post.response (mkPost 5 (mkUser 5 "alice" "pw" "a@x.com") "hello" "world") =
      .error (.typeError "Object of type time is not JSON serializable") ∧
    User.response (mkUser 1 "alice" "pw1" "a@x.com") =
      User.response (mkUser 2 "alice" "pw2" "a@x.com") ∧
    mkUser 1 "alice" "pw1" "a@x.com" ≠ mkUser 2 "alice" "pw2" "a@x.com" := by
  refine ⟨?_, rfl, by decide⟩
  simp [Post.response, Post.wire, mkPost, mkUser, dumpsVal, dumpsMembers]

/-- C2 amended: for the UserCreated, ProfileCreated and CommentCreated
variants serialization succeeds and decoding the wire mapping reproduces
exactly the fields the wire format carries (the referenced user's public
fields and the variant's own payload fields — not the password and not
the creation timestamp, which these variants do not carry); the
PostCreated variant, the only one that tries to carry the creation
timestamp, fails to serialize with a `TypeError`. -/
theorem C2_round_trip_of_carried_fields
    (u : User) (p : Profile) (c : Comment) (po : Post) :
    (∃ s, User.response u = Except.ok s) ∧
    decodeUserWire u.wire = Option.some (u.username, u.email) ∧
    (∃ s, Profile.response p = Except.ok s) ∧
    decodeProfileWire p.wire =
      Option.some { username := p.user.username, email := p.user.email
                    first_name := p.first_name, last_name := p.last_name
                    bio := p.bio, contact := p.contact } ∧
    (∃ s, Comment.response c = Except.ok s) ∧
    decodeCommentWire c.wire = Option.some (c.user.username, c.user.email, c.content) ∧
    Post.response po = .error (.typeError "Object of type time is not JSON serializable") := by
  refine ⟨?_, ?_, ?_, ?_, ?_, ?_, ?_⟩
  · simp [User.response, User.wire, dumpsVal, dumpsMembers]
  · simp [decodeUserWire, User.wire, PyVal.get, List.lookup]
  · cases hb : p.bio <;> cases hc : p.contact <;>
      simp [Profile.response, Profile.wire, optStr, optInt, hb, hc,
        dumpsVal, dumpsMembers]
  · cases hb : p.bio <;> cases hc : p.contact <;>
      simp [decodeProfileWire, decodeUserWire, decodeOptStr, decodeOptInt,
        Profile.wire, optStr, optInt, hb, hc, PyVal.get, List.lookup]
  · simp [Comment.response, Comment.wire, dumpsVal, dumpsMembers]
  · simp [decodeCommentWire, decodeUserWire, Comment.wire, PyVal.get, List.lookup]
  · simp [Post.response, Post.wire, dumpsVal, dumpsMembers]

/-- C7: the serialized output of every event embedding a User reference
is invariant under the referenced user's password — two events differing
only in that password serialize to identical results — and the embedded
user sub-object of the wire mapping consists of exactly the public-safe
username and email fields. -/
theorem C7_password_never_crosses_the_wire
    (p : Profile) (po : Post) (c : Comment) (pw : String) :
    Profile.response { p with user := { p.user with password := pw } } = Profile.response p ∧
    Post.response { po with user := { po.user with password := pw } } = Post.response po ∧
    Comment.response { c with user := { c.user with password := pw } } = Comment.response c ∧
    (Profile.wire p).get "user" =
      Option.some (.dict [("username", .str p.user.username), ("email", .str p.user.email)]) ∧
    (Post.wire po).get "user" =
      Option.some (.dict [("username", .str po.user.username), ("email", .str po.user.email)]) ∧
    (Comment.wire c).get "user" =
      Option.some (.dict [("username", .str c.user.username), ("email", .str c.user.email)]) := by
  refine ⟨rfl, rfl, rfl, ?_, ?_, ?_⟩ <;>
    simp [Profile.wire, Post.wire, Comment.wire, PyVal.get, List.lookup]

/-- C8: every event constructor stamps the creation (and update)
timestamp from the construction-time clock, and the only mutating
operation in the model layer, `Post.add_like`, changes nothing but the
liked list — in particular it never touches the timestamps, so no
operation on a constructed event retroactively alters the fields an
already-serialized message carried. -/
theorem C8_events_immutable_timestamps
    (t : Nat) (un pw em fn ln title content : String)
    (bio : Option String) (contact : Option Int) (u u2 : User) (p : Post) :
    (mkUser t un pw em).created_at = t ∧
    (mkProfile t u fn ln bio contact).created_at = t ∧
    (mkPost t u title content).created_at = t ∧
    (mkComment t u content).created_at = t ∧
    Post.add_like p u2 = { p with liked := p.liked ++ [u2] } ∧
    (Post.add_like p u2).created_at = p.created_at ∧
    (Post.add_like p u2).updated_at = p.updated_at ∧
    (Post.add_like p u2).user = p.user ∧
    (Post.add_like p u2).title = p.title ∧
    (Post.add_like p u2).content = p.content :=
  ⟨rfl, rfl, rfl, rfl, rfl, rfl, rfl, rfl, rfl, rfl⟩
